import Mathlib

/-
Verification of the identifier-generation and change-audit subsystem of the
booklibrary repository: a shallow embedding of bookprocess/utils.py,
bookprocess/admin.py (BookAdmin ISBN/audit helpers), bookprocess/models.py
and bookprocess/services.py, together with theorems settling the stated
properties.

Modelling conventions:
 - Python strings are Lean Strings over their character lists; character
   classification (isdigit, whitespace) is modelled on ASCII, matching the
   data that flows through this subsystem (nationality codes, ISBN digits).
 - Python None / falsiness of strings is modelled with Option String plus an
   explicit truthiness helper.
 - Randomness (random.choice over PREFIXES, random.randint(0, 999999)) is
   modelled as an injected stream of draws, one per loop iteration.
 - The database existence query Book.objects.filter(isbn=...).exists() is
   modelled as an injected predicate existsFn, per the spec (a uniqueness
   oracle consulted at call time).
 - Python exceptions (ValueError, RuntimeError) become an Except error type.
-/

namespace BookLib

/-- Numeric value of an ASCII digit character. -/
def digitVal (c : Char) : Nat := c.toNat - 48

/-- Decimal digit character for n mod 10. -/
def decChar (n : Nat) : Char := Char.ofNat (48 + n % 10)

/-- Python exception classes raised by the subsystem. -/
inductive PyError
  | valueError (msg : String)
  | runtimeError (msg : String)
deriving DecidableEq, Repr

/-- Weighted digit sum of utils.isbn13_check_digit: position i (0-based,
starting at the given index) weighs 1 when even, 3 when odd. -/
def isbn13WeightedSum : Nat → List Char → Nat
  | _, [] => 0
  | i, c :: cs => digitVal c * (if i % 2 = 0 then 1 else 3) + isbn13WeightedSum (i + 1) cs

/-- Embedding of utils.isbn13_check_digit: validates the input is exactly 12
digits, then returns the single check digit character of the weighted
modulo-10 scheme; raises ValueError otherwise. -/
def isbn13_check_digit (digits12 : String) : Except PyError String :=
  if digits12.data.length ≠ 12 ∨ digits12.data.all Char.isDigit ≠ true then
    .error (.valueError "digits12 must contain exactly 12 digits (0-9).")
  else
    let total := isbn13WeightedSum 0 digits12.data
    let check := (10 - total % 10) % 10
    .ok (String.mk [Char.ofNat (48 + check)])

/-- Python str.strip on ASCII whitespace, used by the normalizer. -/
def pyStrip (s : String) : String :=
  String.mk (((s.data.dropWhile Char.isWhitespace).reverse.dropWhile Char.isWhitespace).reverse)

/-- Embedding of utils._normalize_nat_code: keep only digit characters of the
input and produce a 3-character code, with sentinel 000 for missing or
digit-free input, truncation to the first 3 digits, and left zero-padding. -/
def _normalize_nat_code (nat_code : Option String) : String :=
  match nat_code with
  | none => "000"
  | some raw =>
    if raw = "" then "000"
    else
      let s := pyStrip raw
      let digits := s.data.filter Char.isDigit
      if digits = [] then "000"
      else if digits.length ≥ 3 then String.mk (digits.take 3)
      else String.mk (List.replicate (3 - digits.length) '0' ++ digits)

/-- Digit-string parse underlying the Python int() call of
_is_allowed_nat_code. -/
def parseDigits (l : List Char) : Option Nat :=
  if l = [] then none
  else if l.all Char.isDigit then some (l.foldl (fun a c => a * 10 + digitVal c) 0)
  else none

/-- Python int(s) for the strings reaching _is_allowed_nat_code: optional
sign after whitespace stripping, then a nonempty run of digits. -/
def pyInt (s : String) : Option Int :=
  match (pyStrip s).data with
  | '-' :: rest => (parseDigits rest).map (fun n => -(n : Int))
  | '+' :: rest => (parseDigits rest).map (fun n => (n : Int))
  | t => (parseDigits t).map (fun n => (n : Int))

/-- Embedding of utils._is_allowed_nat_code: sentinels 000 and 111 are always
allowed, numeric values 600-621 and 950-989 are allowed, everything else
(including unparsable input, where int() raises) is disallowed. -/
def _is_allowed_nat_code (code3 : String) : Bool :=
  if code3 = "000" ∨ code3 = "111" then true
  else
    match pyInt code3 with
    | none => false
    | some n =>
      if 600 ≤ n ∧ n ≤ 621 then true
      else if 950 ≤ n ∧ n ≤ 989 then true
      else false

/-- Allowed ISBN-13 prefixes (utils.PREFIXES). -/
def PREFIXES : List String := ["978", "979"]

/-- One iteration of randomness of the generator loop: the random.choice index
into PREFIXES and the random.randint(0, 999999) publication segment. -/
structure Draw where
  prefixIdx : Fin PREFIXES.length
  pubId : Fin 1000000
deriving DecidableEq, Repr

/-- Python f-string formatting with 06d of the publication segment; faithful
for the randint(0, 999999) range the generator draws from. -/
def pad6 (n : Nat) : String :=
  String.mk [decChar (n / 100000), decChar (n / 10000), decChar (n / 1000),
             decChar (n / 100), decChar (n / 10), decChar n]

/-- The bounded retry loop of utils.generate_unique_isbn_for_nationality:
draw a prefix and publication segment, assemble the candidate with its check
digit, and return it unless existsFn reports it taken; fuel counts the
remaining tries. -/
def genLoop (nat : String) (existsFn : String → Bool) (stream : Nat → Draw) :
    Nat → Nat → Except PyError String
  | _, 0 => .error (.runtimeError "Nu am reușit să genereze un ISBN unic în limita încercărilor.")
  | i, fuel + 1 =>
    let d := stream i
    let pfx := PREFIXES.get d.prefixIdx
    let pub_id := pad6 d.pubId.val
    let first12 := pfx ++ nat ++ pub_id
    match isbn13_check_digit first12 with
    | .error e => .error e
    | .ok control =>
      let isbn13 := first12 ++ control
      if existsFn isbn13 then genLoop nat existsFn stream (i + 1) fuel
      else .ok isbn13

/-- Embedding of utils.generate_unique_isbn_for_nationality: normalize the
seed code, degrade disallowed codes to the sentinel, then run the bounded
uniqueness search. -/
def generate_unique_isbn_for_nationality (nat_code : Option String)
    (existsFn : String → Bool) (stream : Nat → Draw) (max_tries : Nat) :
    Except PyError String :=
  let nat0 := _normalize_nat_code nat_code
  let nat := if _is_allowed_nat_code nat0 then nat0 else "000"
  genLoop nat existsFn stream 0 max_tries

/-- Trace instrumentation of genLoop: the list of candidates handed to
existsFn, in query order; one query per loop iteration. -/
def genLoopTrace (nat : String) (existsFn : String → Bool) (stream : Nat → Draw) :
    Nat → Nat → List String
  | _, 0 => []
  | i, fuel + 1 =>
    let d := stream i
    let pfx := PREFIXES.get d.prefixIdx
    let pub_id := pad6 d.pubId.val
    let first12 := pfx ++ nat ++ pub_id
    match isbn13_check_digit first12 with
    | .error _ => []
    | .ok control =>
      let isbn13 := first12 ++ control
      if existsFn isbn13 then isbn13 :: genLoopTrace nat existsFn stream (i + 1) fuel
      else [isbn13]

/-- Candidates queried against the registry by one call of
generate_unique_isbn_for_nationality. -/
def generateQueries (nat_code : Option String) (existsFn : String → Bool)
    (stream : Nat → Draw) (max_tries : Nat) : List String :=
  let nat0 := _normalize_nat_code nat_code
  let nat := if _is_allowed_nat_code nat0 then nat0 else "000"
  genLoopTrace nat existsFn stream 0 max_tries

/-- Python string truthiness of an optional string field: the value when it is
a nonempty string, otherwise nothing (covers both None and the empty
string). -/
def truthyStr : Option String → Option String
  | none => none
  | some s => if s = "" then none else some s

/-- models.Nationality: name and ISO-like short code. -/
structure Nationality where
  name : String
  code : String
deriving DecidableEq, Repr

/-- models.Genre. -/
structure Genre where
  name : String
deriving DecidableEq, Repr

/-- models.Author. The nationality foreign key is declared NOT NULL in
models.py; the Option models the attribute access guards the source keeps
(getattr with None default, if author.nationality checks). -/
structure Author where
  first_name : String
  last_name : String
  nationality : Option Nationality
deriving DecidableEq, Repr

/-- Python str(author): "First Last". -/
def Author.pyStr (a : Author) : String := a.first_name ++ " " ++ a.last_name

/-- models.BookAuthor: through record ordering the authors of a book. pk is
none for a record not yet saved. -/
structure BookAuthor where
  pk : Option Nat
  author : Author
  order : Nat
deriving DecidableEq, Repr

/-- models.Book with the fields the ISBN/audit subsystem reads. genre and
cover carry their snapshot-relevant content (display name, stored file
name); isbn is none until first assigned. bookauthor_set lists the saved
membership rows of the book. -/
structure Book where
  pk : Nat
  title : String
  genre : Option Genre
  cover : Option String
  adapted : Bool
  film_title : Option String
  isbn : Option String
  bookauthor_set : List BookAuthor
deriving DecidableEq, Repr

/-- Replace the isbn field of a book. -/
def Book.setIsbn (b : Book) (s : Option String) : Book :=
  ⟨b.pk, b.title, b.genre, b.cover, b.adapted, b.film_title, s, b.bookauthor_set⟩

/-- Insert into a list sorted by the given strict comparison, after any equal
elements. -/
def insertSorted (lt : α → α → Bool) (x : α) : List α → List α
  | [] => [x]
  | y :: ys => if lt x y then x :: y :: ys else y :: insertSorted lt x ys

/-- Insertion sort by the given strict comparison. -/
def sortByLt (lt : α → α → Bool) : List α → List α
  | [] => []
  | x :: xs => insertSorted lt x (sortByLt lt xs)

/-- The queryset book.bookauthor_set.order_by(order): membership rows sorted
ascending by their order value. -/
def orderByOrder (l : List BookAuthor) : List BookAuthor :=
  sortByLt (fun a b => decide (a.order < b.order)) l

/-- Code-point lexicographic comparison of character lists, the order
underlying string comparison. -/
def charListLt : List Char → List Char → Bool
  | [], [] => false
  | [], _ :: _ => true
  | _ :: _, [] => false
  | a :: as, b :: bs =>
    if a.toNat < b.toNat then true
    else if b.toNat < a.toNat then false
    else charListLt as bs

/-- Lexicographic string comparison. -/
def strLt (a b : String) : Bool := charListLt a.data b.data

/-- The queryset book.authors with the default Author ordering of models.py
(last_name, then first_name): the authors reachable through the membership
rows, sorted by that key. -/
def authorsQs (b : Book) : List Author :=
  sortByLt
    (fun x y => strLt x.last_name y.last_name ||
      (decide (x.last_name = y.last_name) && strLt x.first_name y.first_name))
    (b.bookauthor_set.map (fun rel => rel.author))

/-- Embedding of utils._get_main_author_code_from_book: take the first
membership ordered by order and return its author nationality code when
present; otherwise fall back to the first author of the book relation;
otherwise None. The code is returned raw, without normalization. -/
def _get_main_author_code_from_book (book : Book) : Option String :=
  let viaOrdered : Option String :=
    match (orderByOrder book.bookauthor_set).head? with
    | some rel =>
      match rel.author.nationality with
      | some nat => some nat.code
      | none => none
    | none => none
  match viaOrdered with
  | some c => some c
  | none =>
    match (authorsQs book).head? with
    | some first_author =>
      match first_author.nationality with
      | some nat => some nat.code
      | none => none
    | none => none

/-- Embedding of utils.generate_unique_isbn_from_book: an explicit override
wins; otherwise the main author code seeds the generator; a missing code, or
any exception while generating from it, falls back to the sentinel seed. -/
def generate_unique_isbn_from_book (existsFn : String → Bool) (stream : Nat → Draw)
    (book : Book) (nat_code_override : Option String) : Except PyError String :=
  match truthyStr nat_code_override with
  | some ov => generate_unique_isbn_for_nationality (some ov) existsFn stream 5000
  | none =>
    match truthyStr (_get_main_author_code_from_book book) with
    | some c =>
      match generate_unique_isbn_for_nationality (some c) existsFn stream 5000 with
      | .ok s => .ok s
      | .error _ => generate_unique_isbn_for_nationality (some "000") existsFn stream 5000
    | none => generate_unique_isbn_for_nationality (some "000") existsFn stream 5000

/-- Snapshot values: Python scalars occurring in _snapshot_book_state. -/
inductive Val
  | none
  | str (s : String)
  | bool (b : Bool)
  | nat (n : Nat)
deriving DecidableEq, Repr

/-- Lift an optional string to a snapshot value. -/
def optStrVal : Option String → Val
  | none => Val.none
  | some s => Val.str s

/-- Embedding of BookAdmin._snapshot_book_state: the flattened audit view of a
book. -/
def _snapshot_book_state (book : Book) : List (String × Val) :=
  let authors := (orderByOrder book.bookauthor_set).map (fun rel => rel.author)
  let authors_str : Option String :=
    if authors.isEmpty then none
    else some (String.intercalate ", " (authors.map Author.pyStr))
  [("id", Val.nat book.pk),
   ("title", Val.str book.title),
   ("genre", match book.genre with | some g => Val.str g.name | none => Val.none),
   ("cover", optStrVal (truthyStr book.cover)),
   ("adapted", Val.bool book.adapted),
   ("film_title", optStrVal (truthyStr book.film_title)),
   ("isbn", optStrVal (truthyStr book.isbn)),
   ("authors", optStrVal authors_str)]

/-- Python dict.get with default None over a snapshot (snapshot keys are
distinct, so first match is the binding). -/
def dictGet (d : List (String × Val)) (k : String) : Val :=
  match d.find? (fun kv => kv.1 == k) with
  | some kv => kv.2
  | none => Val.none

/-- Embedding of BookAdmin._diff_snapshots: empty when before is empty or no
key of after changed; otherwise every key of after is mapped to its pair of
old and new values. -/
def _diff_snapshots (before after : List (String × Val)) :
    List (String × (Val × Val)) :=
  if before.isEmpty then []
  else
    let any_changed := after.any (fun kv => decide (dictGet before kv.1 ≠ dictGet after kv.1))
    if any_changed then
      after.map (fun kv => (kv.1, (dictGet before kv.1, dictGet after kv.1)))
    else []

/-- Audit actions of auditlog LogEntry. -/
inductive LogAction
  | create
  | update
deriving DecidableEq, Repr

/-- The audit record persisted by services.AuditLogService. -/
structure LogEntry where
  object_pk : String
  action : LogAction
  changes : List (String × (Val × Val))
  actor : String
deriving DecidableEq, Repr

/-- Embedding of AuditLogService.log_book_update: append one UPDATE record to
the audit sink, unless the change payload is empty, in which case the sink is
left untouched. -/
def log_book_update (log : List LogEntry) (user : String) (book : Book)
    (changes : List (String × (Val × Val))) : List LogEntry :=
  if changes.isEmpty then log
  else log ++ [⟨toString book.pk, LogAction.update, changes, user⟩]

/-- Embedding of BookAdmin._update_book_isbn_if_needed: with no membership do
nothing; with no current ISBN generate a first one; otherwise compare the
normalized code of the first ordered author against the segment at offsets
3..6 of the current ISBN and regenerate through the full generator only on a
nonempty mismatching current code. -/
def _update_book_isbn_if_needed (existsFn : String → Bool) (stream : Nat → Draw)
    (book : Book) : Except PyError Book :=
  match (orderByOrder book.bookauthor_set).head? with
  | none => .ok book
  | some first_author_rel =>
    let author := first_author_rel.author
    let nat := author.nationality
    let nat_code_current : String :=
      match nat with
      | some n => _normalize_nat_code (some n.code)
      | none => ""
    match truthyStr book.isbn with
    | none =>
      match generate_unique_isbn_from_book existsFn stream book none with
      | .error e => .error e
      | .ok new_isbn =>
        if new_isbn ≠ "" then .ok (book.setIsbn (some new_isbn)) else .ok book
    | some isbn_s =>
      let old_nat_code :=
        if isbn_s.data.length ≥ 6 then String.mk ((isbn_s.data.drop 3).take 3) else ""
      if nat_code_current = "" ∨ nat_code_current = old_nat_code then .ok book
      else
        match generate_unique_isbn_from_book existsFn stream book none with
        | .error e => .error e
        | .ok new_isbn =>
          if new_isbn ≠ "" ∧ new_isbn ≠ isbn_s then .ok (book.setIsbn (some new_isbn))
          else .ok book

/-- Embedding of the order-assignment logic of BookAuthor.save in models.py:
when the order field holds 1 and the record has no pk yet, the order becomes
the maximum order of the existing membership rows of the book plus one, or 1
when the book has none; otherwise the order is kept. existingOrders are the
order values of the already saved membership rows of the same book. -/
def bookAuthorSaveOrder (existingOrders : List Nat) (pk : Option Nat) (order : Nat) : Nat :=
  if order = 1 ∧ pk = none then
    match existingOrders.max? with
    | some m => m + 1
    | none => 1
  else order

/-! Helper lemmas about digit characters. -/

/-- A digit character built from a value below ten decodes to that value. -/
lemma charOfNat_digit_toNat {m : Nat} (h : m < 10) : (Char.ofNat (48 + m)).toNat = 48 + m := by
  have hall : ∀ k : Fin 10, (Char.ofNat (48 + k.val)).toNat = 48 + k.val := by decide
  exact hall ⟨m, h⟩

/-- A digit character built from a value below ten is a digit. -/
lemma charOfNat_digit_isDigit {m : Nat} (h : m < 10) : (Char.ofNat (48 + m)).isDigit = true := by
  have hall : ∀ k : Fin 10, (Char.ofNat (48 + k.val)).isDigit = true := by decide
  exact hall ⟨m, h⟩

/-- decChar always produces a digit character. -/
lemma decChar_isDigit (n : Nat) : (decChar n).isDigit = true :=
  charOfNat_digit_isDigit (Nat.mod_lt n (by decide))

/-- Appending one character to the weighted sum adds its weighted value at the
final position. -/
lemma isbn13WeightedSum_append (c : Char) :
    ∀ (l : List Char) (i : Nat),
      isbn13WeightedSum i (l ++ [c]) =
        isbn13WeightedSum i l + digitVal c * (if (i + l.length) % 2 = 0 then 1 else 3) := by
  intro l
  induction l with
  | nil => intro i; simp [isbn13WeightedSum]
  | cons hd tl ih =>
    intro i
    have harg : i + (hd :: tl).length = (i + 1) + tl.length := by
      simp [List.length_cons]; omega
    calc isbn13WeightedSum i ((hd :: tl) ++ [c])
        = digitVal hd * (if i % 2 = 0 then 1 else 3) + isbn13WeightedSum (i + 1) (tl ++ [c]) := rfl
      _ = digitVal hd * (if i % 2 = 0 then 1 else 3) +
            (isbn13WeightedSum (i + 1) tl + digitVal c * (if ((i + 1) + tl.length) % 2 = 0 then 1 else 3)) := by
          rw [ih (i + 1)]
      _ = isbn13WeightedSum i (hd :: tl) + digitVal c * (if (i + (hd :: tl).length) % 2 = 0 then 1 else 3) := by
          rw [harg]; show _ = digitVal hd * (if i % 2 = 0 then 1 else 3) + isbn13WeightedSum (i + 1) tl + _
          ring

/-- On a valid 12-digit input the check digit computation succeeds with the
weighted modulo-10 formula. -/
lemma isbn13_check_digit_ok (s : String) (h12 : s.data.length = 12)
    (hd : s.data.all Char.isDigit = true) :
    isbn13_check_digit s =
      .ok (String.mk [Char.ofNat (48 + (10 - (isbn13WeightedSum 0 s.data) % 10) % 10)]) := by
  unfold isbn13_check_digit
  rw [if_neg]
  push_neg
  exact ⟨h12, hd⟩

/-- Claim C5: on every input of exactly 12 ASCII digits, computeCheckDigit
returns the single digit (10 - (S mod 10)) mod 10 for the alternating 1/3
weighted sum S, appending that digit yields a 13-digit string whose weighted
alternating sum is 0 modulo 10, and every other input fails with the
InvalidInput (ValueError) error. -/
theorem checkDigit_formula_and_validity :
    (∀ s : String, s.data.length = 12 → s.data.all Char.isDigit = true →
      ∃ d : Char, isbn13_check_digit s = .ok (String.mk [d]) ∧ d.isDigit = true ∧
        digitVal d = (10 - (isbn13WeightedSum 0 s.data) % 10) % 10 ∧
        (s.data ++ [d]).length = 13 ∧
        isbn13WeightedSum 0 (s.data ++ [d]) % 10 = 0) ∧
    (∀ s : String, ¬ (s.data.length = 12 ∧ s.data.all Char.isDigit = true) →
      isbn13_check_digit s =
        .error (.valueError "digits12 must contain exactly 12 digits (0-9).")) := by
  constructor
  · intro s h12 hd
    set t := isbn13WeightedSum 0 s.data with ht
    have hm : (10 - t % 10) % 10 < 10 := Nat.mod_lt _ (by decide)
    refine ⟨Char.ofNat (48 + (10 - t % 10) % 10), isbn13_check_digit_ok s h12 hd, ?_, ?_, ?_, ?_⟩
    · exact charOfNat_digit_isDigit hm
    · show (Char.ofNat (48 + (10 - t % 10) % 10)).toNat - 48 = (10 - t % 10) % 10
      rw [charOfNat_digit_toNat hm]
      omega
    · simp [h12]
    · rw [isbn13WeightedSum_append, h12, ← ht]
      have hw : (0 + 12) % 2 = 0 := by decide
      rw [hw]
      simp only [if_pos rfl]
      show (t + digitVal (Char.ofNat (48 + (10 - t % 10) % 10)) * 1) % 10 = 0
      have hv : digitVal (Char.ofNat (48 + (10 - t % 10) % 10)) = (10 - t % 10) % 10 := by
        show (Char.ofNat (48 + (10 - t % 10) % 10)).toNat - 48 = (10 - t % 10) % 10
        rw [charOfNat_digit_toNat hm]; omega
      rw [hv]
      omega
  · intro s h
    unfold isbn13_check_digit
    rw [if_pos]
    push_neg at h
    by_cases h12 : s.data.length = 12
    · exact Or.inr (fun hc => h h12 hc)
    · exact Or.inl h12

/-- Witness for C5 at the concrete input 978600123456 and at a malformed
input. -/
theorem checkDigit_formula_and_validity_witness :
    (∃ d : Char, isbn13_check_digit "978600123456" = .ok (String.mk [d]) ∧ d.isDigit = true ∧
      digitVal d = (10 - (isbn13WeightedSum 0 "978600123456".data % 10)) % 10 ∧
      ("978600123456".data ++ [d]).length = 13 ∧
      isbn13WeightedSum 0 ("978600123456".data ++ [d]) % 10 = 0) ∧
    isbn13_check_digit "12ab" =
      .error (.valueError "digits12 must contain exactly 12 digits (0-9).") :=
  ⟨checkDigit_formula_and_validity.1 "978600123456" (by decide) (by decide),
   checkDigit_formula_and_validity.2 "12ab" (by decide)⟩

/-! Helper lemmas about the normalizer. -/

/-- Whitespace characters are not digits. -/
lemma ws_not_digit {c : Char} (h : c.isWhitespace = true) : c.isDigit = false := by
  simp [Char.isWhitespace] at h
  rcases h with ((h | h) | h) | h <;> subst h <;> decide

/-- Dropping leading whitespace does not change the digit content. -/
lemma filter_dropWhile_ws (l : List Char) :
    (l.dropWhile Char.isWhitespace).filter Char.isDigit = l.filter Char.isDigit := by
  induction l with
  | nil => rfl
  | cons c cs ih =>
    by_cases h : c.isWhitespace = true
    · rw [List.dropWhile_cons_of_pos h, ih, List.filter_cons_of_neg]
      simp [ws_not_digit h]
    · rw [List.dropWhile_cons_of_neg h]

/-- Python strip does not change the digit content. -/
lemma pyStrip_filter (s : String) :
    (pyStrip s).data.filter Char.isDigit = s.data.filter Char.isDigit := by
  show ((((s.data.dropWhile Char.isWhitespace).reverse.dropWhile Char.isWhitespace).reverse).filter Char.isDigit)
      = s.data.filter Char.isDigit
  rw [List.filter_reverse, filter_dropWhile_ws, List.filter_reverse, List.reverse_reverse,
    filter_dropWhile_ws]

/-- Filtering by isDigit leaves only digits. -/
lemma all_isDigit_filter (l : List Char) : (l.filter Char.isDigit).all Char.isDigit = true := by
  rw [List.all_eq_true]
  intro a ha
  exact (List.mem_filter.mp ha).2

/-- Characterization of the normalizer on a nonempty string, with the strip
step eliminated. -/
lemma normalize_eq (s : String) (hne : ¬ s = "") :
    _normalize_nat_code (some s) =
      (if s.data.filter Char.isDigit = [] then "000"
       else if (s.data.filter Char.isDigit).length ≥ 3 then
         String.mk ((s.data.filter Char.isDigit).take 3)
       else
         String.mk (List.replicate (3 - (s.data.filter Char.isDigit).length) '0' ++
           s.data.filter Char.isDigit)) := by
  simp only [_normalize_nat_code, if_neg hne, pyStrip_filter]

/-- The normalizer always produces exactly 3 digit characters. -/
lemma normalize_shape (x : Option String) :
    (_normalize_nat_code x).data.length = 3 ∧
      (_normalize_nat_code x).data.all Char.isDigit = true := by
  match x with
    | none => exact ⟨by decide, by decide⟩
    | some s =>
      by_cases hne : s = ""
      · subst hne; exact ⟨by decide, by decide⟩
      · rw [normalize_eq s hne]
        by_cases hnil : s.data.filter Char.isDigit = []
        · rw [if_pos hnil]; exact ⟨by decide, by decide⟩
        · rw [if_neg hnil]
          by_cases h3 : (s.data.filter Char.isDigit).length ≥ 3
          · rw [if_pos h3]
            constructor
            · show ((s.data.filter Char.isDigit).take 3).length = 3
              simp [List.length_take]; omega
            · show ((s.data.filter Char.isDigit).take 3).all Char.isDigit = true
              rw [List.all_eq_true]
              intro a ha
              exact (List.mem_filter.mp (List.take_subset 3 _ ha)).2
          · rw [if_neg h3]
            constructor
            · show (List.replicate (3 - (s.data.filter Char.isDigit).length) '0' ++
                  s.data.filter Char.isDigit).length = 3
              have hlen : (s.data.filter Char.isDigit).length < 3 := by omega
              simp [List.length_append, List.length_replicate]
              omega
            · show (List.replicate (3 - (s.data.filter Char.isDigit).length) '0' ++
                  s.data.filter Char.isDigit).all Char.isDigit = true
              rw [List.all_eq_true]
              intro a ha
              rcases List.mem_append.mp ha with h | h
              · rw [List.eq_of_mem_replicate h]; decide
              · exact (List.mem_filter.mp h).2

/-- Claim C6: normalize always returns a string of exactly 3 ASCII digits:
the sentinel 000 for an absent or digit-free input, the first three digits
when at least three remain, and the remaining digits left-padded with zeros
otherwise. -/
theorem normalize_always_three_digits (x : Option String) :
    ((_normalize_nat_code x).data.length = 3 ∧
      (_normalize_nat_code x).data.all Char.isDigit = true) ∧
    ((x = none ∨ x = some "" ∨ (∃ s, x = some s ∧ s.data.filter Char.isDigit = [])) →
      _normalize_nat_code x = "000") ∧
    (∀ s, x = some s → 3 ≤ (s.data.filter Char.isDigit).length →
      (_normalize_nat_code x).data = (s.data.filter Char.isDigit).take 3) ∧
    (∀ s, x = some s → 1 ≤ (s.data.filter Char.isDigit).length →
      (s.data.filter Char.isDigit).length ≤ 2 →
      (_normalize_nat_code x).data =
        List.replicate (3 - (s.data.filter Char.isDigit).length) '0' ++
          s.data.filter Char.isDigit) := by
  refine ⟨normalize_shape x, ?_, ?_, ?_⟩
  · rintro (rfl | rfl | ⟨s, rfl, hnil⟩)
    · rfl
    · rfl
    · by_cases hne : s = ""
      · subst hne; rfl
      · rw [normalize_eq s hne, if_pos hnil]
  · rintro s rfl h3
    have hne : ¬ s = "" := by
      intro hs; subst hs; simp at h3
    have hnil : ¬ s.data.filter Char.isDigit = [] := by
      intro hs; rw [hs] at h3; simp at h3
    rw [normalize_eq s hne, if_neg hnil, if_pos h3]
  · rintro s rfl h1 h2
    have hne : ¬ s = "" := by
      intro hs; subst hs; simp at h1
    have hnil : ¬ s.data.filter Char.isDigit = [] := by
      intro hs; rw [hs] at h1; simp at h1
    have h3 : ¬ (s.data.filter Char.isDigit).length ≥ 3 := by omega
    rw [normalize_eq s hne, if_neg hnil, if_neg h3]

/-- Witness for C6 at concrete inputs: a two-digit input is left-padded, an
absent input gives the sentinel, a five-digit input is truncated, and the
result is always 3 digits. -/
theorem normalize_always_three_digits_witness :
    ((_normalize_nat_code (some "a-40")).data.length = 3 ∧
      (_normalize_nat_code (some "a-40")).data.all Char.isDigit = true) ∧
    (_normalize_nat_code (some "a-40")).data =
      List.replicate (3 - ("a-40".data.filter Char.isDigit).length) '0' ++
        "a-40".data.filter Char.isDigit ∧
    _normalize_nat_code none = "000" ∧
    (_normalize_nat_code (some "12345")).data = ("12345".data.filter Char.isDigit).take 3 :=
  ⟨(normalize_always_three_digits (some "a-40")).1,
   (normalize_always_three_digits (some "a-40")).2.2.2 "a-40" rfl (by decide) (by decide),
   (normalize_always_three_digits none).2.1 (Or.inl rfl),
   (normalize_always_three_digits (some "12345")).2.2.1 "12345" rfl (by decide)⟩

/-! Helper lemmas about the generator. -/

/-- The drawn prefix is one of the two allowed prefixes. -/
lemma prefixes_get (i : Fin PREFIXES.length) :
    PREFIXES.get i = "978" ∨ PREFIXES.get i = "979" := by
  have hall : ∀ j : Fin PREFIXES.length, PREFIXES.get j = "978" ∨ PREFIXES.get j = "979" := by
    decide
  exact hall i

/-- The drawn prefix is 3 digit characters. -/
lemma prefixes_get_shape (i : Fin PREFIXES.length) :
    (PREFIXES.get i).data.length = 3 ∧ (PREFIXES.get i).data.all Char.isDigit = true := by
  rcases prefixes_get i with h | h <;> rw [h] <;> exact ⟨by decide, by decide⟩

/-- The publication segment is 6 digit characters. -/
lemma pad6_shape (n : Nat) :
    (pad6 n).data.length = 6 ∧ (pad6 n).data.all Char.isDigit = true := by
  refine ⟨rfl, ?_⟩
  show ([decChar (n / 100000), decChar (n / 10000), decChar (n / 1000),
         decChar (n / 100), decChar (n / 10), decChar n]).all Char.isDigit = true
  simp [List.all_cons, decChar_isDigit]

/-- The candidate seed assembled in one loop iteration is 12 digit
characters. -/
lemma first12_shape (i : Fin PREFIXES.length) (nat : String) (m : Nat)
    (h3 : nat.data.length = 3) (hd : nat.data.all Char.isDigit = true) :
    (PREFIXES.get i ++ nat ++ pad6 m).data.length = 12 ∧
      (PREFIXES.get i ++ nat ++ pad6 m).data.all Char.isDigit = true := by
  have hp := prefixes_get_shape i
  have hq := pad6_shape m
  have e : (PREFIXES.get i ++ nat ++ pad6 m).data =
      (PREFIXES.get i).data ++ nat.data ++ (pad6 m).data := by
    rw [String.data_append, String.data_append]
  constructor
  · rw [e, List.length_append, List.length_append, hp.1, h3, hq.1]
  · rw [e, List.all_append, List.all_append, hp.2, hd, hq.2]
    rfl

/-- One successful-check step of the retry loop, in equational form. -/
lemma genLoop_succ_eq (nat : String) (existsFn : String → Bool) (stream : Nat → Draw)
    (i n : Nat) (ctl : String)
    (hck : isbn13_check_digit (PREFIXES.get (stream i).prefixIdx ++ nat ++
      pad6 (stream i).pubId.val) = .ok ctl) :
    genLoop nat existsFn stream i (n + 1) =
      (if existsFn (PREFIXES.get (stream i).prefixIdx ++ nat ++
          pad6 (stream i).pubId.val ++ ctl) = true then
        genLoop nat existsFn stream (i + 1) n
      else
        .ok (PREFIXES.get (stream i).prefixIdx ++ nat ++ pad6 (stream i).pubId.val ++ ctl)) := by
  rw [genLoop, hck]

/-- A successful run of the retry loop returns the candidate of some
iteration, and that candidate was free according to existsFn. -/
lemma genLoop_ok_decomp (nat : String) (existsFn : String → Bool) (stream : Nat → Draw)
    (h3 : nat.data.length = 3) (hd : nat.data.all Char.isDigit = true) :
    ∀ (fuel i : Nat) (s : String), genLoop nat existsFn stream i fuel = .ok s →
      ∃ j ctl,
        isbn13_check_digit (PREFIXES.get (stream j).prefixIdx ++ nat ++
          pad6 (stream j).pubId.val) = .ok ctl ∧
        s = PREFIXES.get (stream j).prefixIdx ++ nat ++ pad6 (stream j).pubId.val ++ ctl ∧
        existsFn s = false := by
  intro fuel
  induction fuel with
  | zero => intro i s h; exact absurd h (by simp [genLoop])
  | succ n ih =>
    intro i s h
    have hsh := first12_shape (stream i).prefixIdx nat (stream i).pubId.val h3 hd
    have hck := isbn13_check_digit_ok _ hsh.1 hsh.2
    rw [genLoop_succ_eq nat existsFn stream i n _ hck] at h
    by_cases hex : existsFn (PREFIXES.get (stream i).prefixIdx ++ nat ++
        pad6 (stream i).pubId.val ++
        String.mk [Char.ofNat (48 + (10 - (isbn13WeightedSum 0
          (PREFIXES.get (stream i).prefixIdx ++ nat ++
            pad6 (stream i).pubId.val).data) % 10) % 10)]) = true
    · rw [if_pos hex] at h
      exact ih (i + 1) s h
    · rw [if_neg hex] at h
      rw [Bool.not_eq_true] at hex
      refine ⟨i, String.mk [Char.ofNat (48 + (10 - (isbn13WeightedSum 0
        (PREFIXES.get (stream i).prefixIdx ++ nat ++
          pad6 (stream i).pubId.val).data) % 10) % 10)], hck, ?_, ?_⟩
      · exact (Except.ok.inj h).symm
      · rw [← Except.ok.inj h]
        exact hex

/-- The classification segment actually embedded by the generator: the
normalized seed when allowed, the sentinel otherwise. -/
def natUsed (nat_code : Option String) : String :=
  if _is_allowed_nat_code (_normalize_nat_code nat_code) then _normalize_nat_code nat_code
  else "000"

/-- The embedded segment is always 3 digit characters. -/
lemma natUsed_shape (nat_code : Option String) :
    (natUsed nat_code).data.length = 3 ∧ (natUsed nat_code).data.all Char.isDigit = true := by
  unfold natUsed
  by_cases ha : _is_allowed_nat_code (_normalize_nat_code nat_code) = true
  · rw [if_pos ha]; exact normalize_shape nat_code
  · rw [if_neg ha]; exact ⟨by decide, by decide⟩

/-- Structure of every identifier returned by the generator: 13 digits,
allowed prefix, the embedded segment, a valid check digit, and freeness
according to existsFn. -/
lemma generate_ok_shape (nat_code : Option String) (existsFn : String → Bool)
    (stream : Nat → Draw) (max_tries : Nat) (s : String)
    (h : generate_unique_isbn_for_nationality nat_code existsFn stream max_tries = .ok s) :
    s.data.length = 13 ∧ s.data.all Char.isDigit = true ∧
    (s.data.take 3 = "978".data ∨ s.data.take 3 = "979".data) ∧
    (s.data.drop 3).take 3 = (natUsed nat_code).data ∧
    isbn13_check_digit (String.mk (s.data.take 12)) = .ok (String.mk (s.data.drop 12)) ∧
    existsFn s = false := by
  have hsh := natUsed_shape nat_code
  have hloop : genLoop (natUsed nat_code) existsFn stream 0 max_tries = .ok s := h
  obtain ⟨j, ctl, hck, hs, hex⟩ :=
    genLoop_ok_decomp (natUsed nat_code) existsFn stream hsh.1 hsh.2 max_tries 0 s hloop
  have hp := prefixes_get_shape (stream j).prefixIdx
  have hq := pad6_shape (stream j).pubId.val
  have hfs := first12_shape (stream j).prefixIdx (natUsed nat_code) (stream j).pubId.val hsh.1 hsh.2
  have hck2 := isbn13_check_digit_ok _ hfs.1 hfs.2
  have hctl : ctl = String.mk [Char.ofNat (48 + (10 - (isbn13WeightedSum 0
      (PREFIXES.get (stream j).prefixIdx ++ natUsed nat_code ++
        pad6 (stream j).pubId.val).data) % 10) % 10)] := by
    rw [hck] at hck2
    exact Except.ok.inj hck2
  have hctl_len : ctl.data.length = 1 := by rw [hctl]; rfl
  have hctl_dig : ctl.data.all Char.isDigit = true := by
    rw [hctl]
    show ([Char.ofNat (48 + (10 - (isbn13WeightedSum 0 _) % 10) % 10)]).all Char.isDigit = true
    simp [List.all_cons]
    exact charOfNat_digit_isDigit (Nat.mod_lt _ (by decide))
  have hdata : s.data = (PREFIXES.get (stream j).prefixIdx).data ++
      ((natUsed nat_code).data ++ ((pad6 (stream j).pubId.val).data ++ ctl.data)) := by
    rw [hs, String.data_append, String.data_append, String.data_append, List.append_assoc,
      List.append_assoc]
  have hdata12 : s.data = ((PREFIXES.get (stream j).prefixIdx).data ++
      ((natUsed nat_code).data ++ (pad6 (stream j).pubId.val).data)) ++ ctl.data := by
    rw [hdata]
    simp [List.append_assoc]
  have htake3 : s.data.take 3 = (PREFIXES.get (stream j).prefixIdx).data := by
    rw [hdata, ← hp.1, List.take_left]
  have hdrop3 : s.data.drop 3 =
      (natUsed nat_code).data ++ ((pad6 (stream j).pubId.val).data ++ ctl.data) := by
    rw [hdata, ← hp.1, List.drop_left]
  have htake12 : s.data.take 12 = (PREFIXES.get (stream j).prefixIdx).data ++
      ((natUsed nat_code).data ++ (pad6 (stream j).pubId.val).data) := by
    have hl : ((PREFIXES.get (stream j).prefixIdx).data ++
        ((natUsed nat_code).data ++ (pad6 (stream j).pubId.val).data)).length = 12 := by
      rw [List.length_append, List.length_append, hp.1, hsh.1, hq.1]
    rw [hdata12, ← hl, List.take_left]
  have hdrop12 : s.data.drop 12 = ctl.data := by
    have hl : ((PREFIXES.get (stream j).prefixIdx).data ++
        ((natUsed nat_code).data ++ (pad6 (stream j).pubId.val).data)).length = 12 := by
      rw [List.length_append, List.length_append, hp.1, hsh.1, hq.1]
    rw [hdata12, ← hl, List.drop_left]
  refine ⟨?_, ?_, ?_, ?_, ?_, hex⟩
  · rw [hdata, List.length_append, List.length_append, List.length_append,
      hp.1, hsh.1, hq.1, hctl_len]
  · rw [hdata, List.all_append, List.all_append, List.all_append,
      hp.2, hsh.2, hq.2, hctl_dig]
    rfl
  · rw [htake3]
    rcases prefixes_get (stream j).prefixIdx with hpre | hpre <;> rw [hpre]
    · exact Or.inl rfl
    · exact Or.inr rfl
  · rw [hdrop3, ← hsh.1, List.take_left]
  · rw [htake12, hdrop12]
    have hfirst : String.mk ((PREFIXES.get (stream j).prefixIdx).data ++
        ((natUsed nat_code).data ++ (pad6 (stream j).pubId.val).data)) =
        PREFIXES.get (stream j).prefixIdx ++ natUsed nat_code ++ pad6 (stream j).pubId.val := by
      rw [← List.append_assoc]
      apply String.ext
      simp [String.data_append]
    rw [hfirst]
    exact hck

/-- With a saturated registry the retry loop spends its whole budget and
fails with the RuntimeError. -/
lemma genLoop_exhaust (nat : String) (existsFn : String → Bool) (stream : Nat → Draw)
    (h3 : nat.data.length = 3) (hd : nat.data.all Char.isDigit = true)
    (hex : ∀ c, existsFn c = true) :
    ∀ (fuel i : Nat), genLoop nat existsFn stream i fuel =
      .error (.runtimeError "Nu am reușit să genereze un ISBN unic în limita încercărilor.") := by
  intro fuel
  induction fuel with
  | zero => intro i; rfl
  | succ n ih =>
    intro i
    have hsh := first12_shape (stream i).prefixIdx nat (stream i).pubId.val h3 hd
    have hck := isbn13_check_digit_ok _ hsh.1 hsh.2
    rw [genLoop_succ_eq nat existsFn stream i n _ hck, if_pos (hex _), ih]

/-- One successful-check step of the trace, in equational form. -/
lemma genLoopTrace_succ_eq (nat : String) (existsFn : String → Bool) (stream : Nat → Draw)
    (i n : Nat) (ctl : String)
    (hck : isbn13_check_digit (PREFIXES.get (stream i).prefixIdx ++ nat ++
      pad6 (stream i).pubId.val) = .ok ctl) :
    genLoopTrace nat existsFn stream i (n + 1) =
      (if existsFn (PREFIXES.get (stream i).prefixIdx ++ nat ++
          pad6 (stream i).pubId.val ++ ctl) = true then
        (PREFIXES.get (stream i).prefixIdx ++ nat ++ pad6 (stream i).pubId.val ++ ctl) ::
          genLoopTrace nat existsFn stream (i + 1) n
      else
        [PREFIXES.get (stream i).prefixIdx ++ nat ++ pad6 (stream i).pubId.val ++ ctl]) := by
  rw [genLoopTrace, hck]

/-- With a saturated registry the loop consults the registry exactly once per
try, for the full budget. -/
lemma genLoopTrace_len (nat : String) (existsFn : String → Bool) (stream : Nat → Draw)
    (h3 : nat.data.length = 3) (hd : nat.data.all Char.isDigit = true)
    (hex : ∀ c, existsFn c = true) :
    ∀ (fuel i : Nat), (genLoopTrace nat existsFn stream i fuel).length = fuel := by
  intro fuel
  induction fuel with
  | zero => intro i; rfl
  | succ n ih =>
    intro i
    have hsh := first12_shape (stream i).prefixIdx nat (stream i).pubId.val h3 hd
    have hck := isbn13_check_digit_ok _ hsh.1 hsh.2
    rw [genLoopTrace_succ_eq nat existsFn stream i n _ hck, if_pos (hex _),
      List.length_cons, ih]

/-- A fixed stream of draws used by the concrete witnesses. -/
def streamZero : Nat → Draw := fun _ => ⟨⟨0, by decide⟩, ⟨0, by decide⟩⟩

/-- Claim C3: every identifier returned by the generator is a string of
exactly 13 ASCII digits of the form prefix(3) ++ classification(3) ++
publication(6) ++ check(1), where the prefix is 978 or 979, the
classification segment is the normalized input code when it passes the
allow-list and the sentinel 000 otherwise, and the last character is the
check digit of the first 12 digits. -/
theorem generate_identifier_shape (nat_code : Option String) (existsFn : String → Bool)
    (stream : Nat → Draw) (max_tries : Nat) (s : String)
    (h : generate_unique_isbn_for_nationality nat_code existsFn stream max_tries = .ok s) :
    s.data.length = 13 ∧ s.data.all Char.isDigit = true ∧
    (s.data.take 3 = "978".data ∨ s.data.take 3 = "979".data) ∧
    (s.data.drop 3).take 3 =
      (if _is_allowed_nat_code (_normalize_nat_code nat_code) then _normalize_nat_code nat_code
       else "000").data ∧
    isbn13_check_digit (String.mk (s.data.take 12)) = .ok (String.mk (s.data.drop 12)) :=
  have hh := generate_ok_shape nat_code existsFn stream max_tries s h
  ⟨hh.1, hh.2.1, hh.2.2.1, hh.2.2.2.1, hh.2.2.2.2.1⟩

/-- Witness for C3 on the concrete run that yields 9786000000004 from
seed code 600 with an empty registry. -/
theorem generate_identifier_shape_witness :
    "9786000000004".data.length = 13 ∧ "9786000000004".data.all Char.isDigit = true ∧
    ("9786000000004".data.take 3 = "978".data ∨ "9786000000004".data.take 3 = "979".data) ∧
    ("9786000000004".data.drop 3).take 3 =
      (if _is_allowed_nat_code (_normalize_nat_code (some "600")) then
        _normalize_nat_code (some "600") else "000").data ∧
    isbn13_check_digit (String.mk ("9786000000004".data.take 12)) =
      .ok (String.mk ("9786000000004".data.drop 12)) :=
  generate_identifier_shape (some "600") (fun _ => false) streamZero 1 "9786000000004" (by rfl)

/-- Claim C4: the generator never returns a candidate the injected existence
predicate reports as taken at query time, and when every candidate is taken
it consults the predicate exactly maxTries times (once per draw) and fails
with the ExhaustedRetries RuntimeError, returning no identifier. -/
theorem generate_respects_exists_and_budget :
    (∀ (nat_code : Option String) (existsFn : String → Bool) (stream : Nat → Draw)
        (max_tries : Nat) (s : String),
      generate_unique_isbn_for_nationality nat_code existsFn stream max_tries = .ok s →
        existsFn s = false) ∧
    (∀ (nat_code : Option String) (existsFn : String → Bool) (stream : Nat → Draw)
        (max_tries : Nat),
      (∀ c, existsFn c = true) →
        generate_unique_isbn_for_nationality nat_code existsFn stream max_tries =
          .error (.runtimeError "Nu am reușit să genereze un ISBN unic în limita încercărilor.") ∧
        (generateQueries nat_code existsFn stream max_tries).length = max_tries) := by
  constructor
  · intro nc ex st mt s h
    exact (generate_ok_shape nc ex st mt s h).2.2.2.2.2
  · intro nc ex st mt hex
    have hsh := natUsed_shape nc
    exact ⟨genLoop_exhaust (natUsed nc) ex st hsh.1 hsh.2 hex mt 0,
      genLoopTrace_len (natUsed nc) ex st hsh.1 hsh.2 hex mt 0⟩

/-- Witness for C4: the returned candidate was free, and with an always-true
predicate a budget of 3 gives 3 queries and the RuntimeError. -/
theorem generate_respects_exists_and_budget_witness :
    (fun (_ : String) => false) "9786000000004" = false ∧
    generate_unique_isbn_for_nationality (some "600") (fun _ => true) streamZero 3 =
      .error (.runtimeError "Nu am reușit să genereze un ISBN unic în limita încercărilor.") ∧
    (generateQueries (some "600") (fun _ => true) streamZero 3).length = 3 :=
  ⟨generate_respects_exists_and_budget.1 (some "600") (fun _ => false) streamZero 1
      "9786000000004" (by rfl),
   (generate_respects_exists_and_budget.2 (some "600") (fun _ => true) streamZero 3
      (fun _ => rfl)).1,
   (generate_respects_exists_and_budget.2 (some "600") (fun _ => true) streamZero 3
      (fun _ => rfl)).2⟩

/-! Snapshot and diff properties. -/

/-- Diffing a snapshot against itself is empty. -/
lemma diff_self (d : List (String × Val)) : _diff_snapshots d d = [] := by
  simp only [_diff_snapshots]
  by_cases h : d.isEmpty = true
  · rw [if_pos h]
  · rw [if_neg h]
    have h2 : (d.any fun kv => decide (dictGet d kv.1 ≠ dictGet d kv.1)) = false := by
      rw [List.any_eq_false]
      intro kv _
      simp
    rw [h2]
    simp

/-- Claim C8: two snapshots of an unmutated entity diff to the empty mapping,
and the audit sink is never handed an empty UPDATE payload: logging an empty
change set leaves the audit log untouched. -/
theorem noop_update_writes_no_audit (book : Book) (log : List LogEntry) (user : String) :
    _diff_snapshots (_snapshot_book_state book) (_snapshot_book_state book) = [] ∧
    log_book_update log user book [] = log :=
  ⟨diff_self _, rfl⟩

/-- A book state used by the diff scenario: one membership, an assigned
identifier, no film title yet. -/
def bookBeforeEdit : Book :=
  ⟨1, "Dune", some ⟨"SF"⟩, none, false, none, some "9786000000004",
   [⟨some 1, ⟨"Frank", "Herbert", some ⟨"USA", "600"⟩⟩, 1⟩]⟩

/-- The same book after an update that only sets the free-text film title. -/
def bookAfterEdit : Book :=
  ⟨1, "Dune", some ⟨"SF"⟩, none, false, some "Dune Part One", some "9786000000004",
   [⟨some 1, ⟨"Frank", "Herbert", some ⟨"USA", "600"⟩⟩, 1⟩]⟩

/-- Claim C1 counterexample: around an update that changes only the film
title, the produced change set also contains the unchanged title key, so its
key set is not exactly the changed field. -/
theorem diff_contains_unchanged_key :
    ("title", (Val.str "Dune", Val.str "Dune")) ∈
      _diff_snapshots (_snapshot_book_state bookBeforeEdit) (_snapshot_book_state bookAfterEdit) ∧
    dictGet (_snapshot_book_state bookBeforeEdit) "title" =
      dictGet (_snapshot_book_state bookAfterEdit) "title" ∧
    (_diff_snapshots (_snapshot_book_state bookBeforeEdit)
        (_snapshot_book_state bookAfterEdit)).map Prod.fst ≠ ["film_title"] := by
  decide

/-- Claim C1 as amended: diff returns the empty mapping when the before
snapshot is empty or when no key of the after snapshot differs; as soon as at
least one key differs it maps every key of the after snapshot, unchanged ones
included, to its pair of before and after values. -/
theorem diff_all_keys_characterization (before after : List (String × Val)) :
    (before.isEmpty = true → _diff_snapshots before after = []) ∧
    (before.isEmpty = false →
      ((∀ kv ∈ after, dictGet before kv.1 = dictGet after kv.1) →
        _diff_snapshots before after = []) ∧
      ((∃ kv ∈ after, dictGet before kv.1 ≠ dictGet after kv.1) →
        _diff_snapshots before after =
          after.map fun kv => (kv.1, (dictGet before kv.1, dictGet after kv.1)))) := by
  refine ⟨?_, ?_⟩
  · intro h
    simp only [_diff_snapshots]
    rw [if_pos h]
  · intro h
    constructor
    · intro hall
      simp only [_diff_snapshots]
      rw [if_neg (by rw [h]; simp)]
      have h2 : (after.any fun kv => decide (dictGet before kv.1 ≠ dictGet after kv.1)) = false := by
        rw [List.any_eq_false]
        intro kv hkv
        simpa using hall kv hkv
      rw [h2]
      simp
    · intro hsome
      simp only [_diff_snapshots]
      rw [if_neg (by rw [h]; simp)]
      have h2 : (after.any fun kv => decide (dictGet before kv.1 ≠ dictGet after kv.1)) = true := by
        rw [List.any_eq_true]
        obtain ⟨kv, hkv, hne⟩ := hsome
        exact ⟨kv, hkv, by simpa using hne⟩
      rw [h2]
      simp

/-- Witness for the amended C1 on the single-field update scenario: the
change set lists every snapshot key with its old and new value. -/
theorem diff_all_keys_characterization_witness :
    _diff_snapshots (_snapshot_book_state bookBeforeEdit) (_snapshot_book_state bookAfterEdit) =
      (_snapshot_book_state bookAfterEdit).map
        (fun kv => (kv.1, (dictGet (_snapshot_book_state bookBeforeEdit) kv.1,
          dictGet (_snapshot_book_state bookAfterEdit) kv.1))) :=
  ((diff_all_keys_characterization (_snapshot_book_state bookBeforeEdit)
      (_snapshot_book_state bookAfterEdit)).2 (by decide)).2 (by decide)

/-! Membership order auto-assignment. -/

/-- Claim C9 counterexample: a new membership row whose order field is
explicitly set to 1, for a book that already has a membership with order 1,
is saved with order 2 instead of the given 1 — an explicitly set order of 1
is indistinguishable from the default and is not kept. -/
theorem explicit_order_one_not_kept :
    bookAuthorSaveOrder [1] none 1 = 2 ∧ bookAuthorSaveOrder [1] none 1 ≠ 1 := by
  decide

/-- Claim C9 as amended: the order is auto-assigned exactly when the order
field holds the default value 1 and the row is new (explicitly setting 1 is
indistinguishable from the default): the maximum existing order plus one, or
1 for the first-ever membership; any other order value, and any already
saved row, keeps its order. -/
theorem order_auto_assignment (existingOrders : List Nat) (pk : Option Nat) (order : Nat) :
    (¬ (order = 1 ∧ pk = none) → bookAuthorSaveOrder existingOrders pk order = order) ∧
    (order = 1 → pk = none → existingOrders = [] →
      bookAuthorSaveOrder existingOrders pk order = 1) ∧
    (order = 1 → pk = none → ∀ m, existingOrders.max? = some m →
      bookAuthorSaveOrder existingOrders pk order = m + 1) := by
  refine ⟨?_, ?_, ?_⟩
  · intro h
    unfold bookAuthorSaveOrder
    rw [if_neg h]
  · rintro rfl rfl rfl
    rfl
  · rintro rfl rfl m hm
    unfold bookAuthorSaveOrder
    rw [if_pos ⟨rfl, rfl⟩, hm]

/-- Witness for the amended C9: an explicit order 3 is kept, the first-ever
membership gets order 1, and a defaulted new row gets max plus one. -/
theorem order_auto_assignment_witness :
    bookAuthorSaveOrder [2, 5] none 3 = 3 ∧
    bookAuthorSaveOrder [] none 1 = 1 ∧
    bookAuthorSaveOrder [2, 5] none 1 = 5 + 1 :=
  ⟨(order_auto_assignment [2, 5] none 3).1 (by decide),
   (order_auto_assignment [] none 1).2.1 rfl rfl rfl,
   (order_auto_assignment [2, 5] none 1).2.2 rfl rfl 5 (by decide)⟩

/-! Primary classification resolution. -/

/-- A book whose single author carries the short nationality code 40. -/
def bookRawCode : Book :=
  ⟨2, "Raw", none, none, false, none, none,
   [⟨some 1, ⟨"Ana", "Pop", some ⟨"Romania", "40"⟩⟩, 1⟩]⟩

/-- A book with no contributors. -/
def bookNoAuthors : Book := ⟨3, "Empty", none, none, false, none, none, []⟩

/-- A book whose first ordered membership carries no nationality while a
second contributor, first in the default author ordering of the entity
relation, carries code 611. -/
def bookFallback : Book :=
  ⟨6, "Fallback", none, none, false, none, none,
   [⟨some 1, ⟨"Zoe", "Zimmer", none⟩, 1⟩,
    ⟨some 2, ⟨"Bob", "Adams", some ⟨"Z", "611"⟩⟩, 2⟩]⟩

/-- Claim C7 counterexample: for a primary contributor whose code is 40 the
resolver returns the raw code 40, not the normalized 3-digit 040 the claim
promises; and for a book whose ordered membership exists but whose first
ordered contributor has no code, the resolver still falls back to the entity
relation and returns the code of a different contributor, instead of the
fallback firing only when no ordered membership exists. -/
theorem resolver_returns_raw_code :
    (_get_main_author_code_from_book bookRawCode = some "40" ∧
      _normalize_nat_code (some "40") = "040" ∧
      _get_main_author_code_from_book bookRawCode ≠ some (_normalize_nat_code (some "40"))) ∧
    ((orderByOrder bookFallback.bookauthor_set).head? =
        some ⟨some 1, ⟨"Zoe", "Zimmer", none⟩, 1⟩ ∧
      _get_main_author_code_from_book bookFallback = some "611" ∧
      (authorsQs bookFallback).head? = some ⟨"Bob", "Adams", some ⟨"Z", "611"⟩⟩) := by
  decide

/-- When the first ordered membership has a nationality, the resolver returns
its raw code. -/
lemma resolver_primary_code (book : Book) (rel : BookAuthor) (natl : Nationality)
    (hh : (orderByOrder book.bookauthor_set).head? = some rel)
    (hn : rel.author.nationality = some natl) :
    _get_main_author_code_from_book book = some natl.code := by
  unfold _get_main_author_code_from_book
  rw [hh]
  simp [hn]

/-- When the first ordered membership has no nationality, the resolver falls
back to the first author of the entity relation. -/
lemma resolver_fallback (book : Book) (rel : BookAuthor)
    (hh : (orderByOrder book.bookauthor_set).head? = some rel)
    (hn : rel.author.nationality = none) :
    _get_main_author_code_from_book book =
      (match (authorsQs book).head? with
       | some a =>
         match a.nationality with
         | some natl => some natl.code
         | none => none
       | none => none) := by
  unfold _get_main_author_code_from_book
  rw [hh]
  simp [hn]

/-- Claim C7 as amended: the resolver orders the memberships ascending by
order and takes the first; when that contributor has a classification code it
returns it raw, without normalization (normalization is applied later by the
generator); when the ordered path yields no code — no ordered membership, or
a first ordered contributor without a nationality — it falls back to the
first contributor reachable via the entity relation (under the relation
default ordering) and returns that contributor raw code when present; it
returns none when the entity has no contributors at all. -/
theorem resolver_characterization (book : Book) :
    (∀ rel natl, (orderByOrder book.bookauthor_set).head? = some rel →
      rel.author.nationality = some natl →
      _get_main_author_code_from_book book = some natl.code) ∧
    (∀ rel, (orderByOrder book.bookauthor_set).head? = some rel →
      rel.author.nationality = none →
      (∀ a natl2, (authorsQs book).head? = some a → a.nationality = some natl2 →
        _get_main_author_code_from_book book = some natl2.code) ∧
      (∀ a, (authorsQs book).head? = some a → a.nationality = none →
        _get_main_author_code_from_book book = none) ∧
      ((authorsQs book).head? = none → _get_main_author_code_from_book book = none)) ∧
    (book.bookauthor_set = [] → _get_main_author_code_from_book book = none) := by
  refine ⟨?_, ?_, ?_⟩
  · intro rel natl hh hn
    exact resolver_primary_code book rel natl hh hn
  · intro rel hh hn
    refine ⟨?_, ?_, ?_⟩
    · intro a natl2 ha hna
      rw [resolver_fallback book rel hh hn, ha]
      simp [hna]
    · intro a ha hna
      rw [resolver_fallback book rel hh hn, ha]
      simp [hna]
    · intro ha
      rw [resolver_fallback book rel hh hn, ha]
  · intro h
    unfold _get_main_author_code_from_book authorsQs orderByOrder
    rw [h]
    rfl

/-- Witness for the amended C7 at a book with a raw short code, at a book
whose primary contributor has no code so the entity-relation fallback
delivers a different contributor code, and at a book with no contributors. -/
theorem resolver_characterization_witness :
    _get_main_author_code_from_book bookRawCode =
      some (Nationality.mk "Romania" "40").code ∧
    _get_main_author_code_from_book bookFallback =
      some (Nationality.mk "Z" "611").code ∧
    _get_main_author_code_from_book bookNoAuthors = none :=
  ⟨(resolver_characterization bookRawCode).1
      ⟨some 1, ⟨"Ana", "Pop", some ⟨"Romania", "40"⟩⟩, 1⟩ ⟨"Romania", "40"⟩ rfl rfl,
   ((resolver_characterization bookFallback).2.1
      ⟨some 1, ⟨"Zoe", "Zimmer", none⟩, 1⟩ rfl rfl).1
      ⟨"Bob", "Adams", some ⟨"Z", "611"⟩⟩ ⟨"Z", "611"⟩ rfl rfl,
   (resolver_characterization bookNoAuthors).2.2 rfl⟩

/-! Update orchestration lemmas. -/

/-- A string whose character list has positive length is not empty. -/
lemma ne_empty_of_data_len {s : String} {n : Nat} (h : s.data.length = n) (hn : 0 < n) :
    ¬ s = "" := by
  intro he
  subst he
  simp at h
  omega

/-- The from-book generator with a resolved nonempty code: try that code,
fall back to the sentinel on an exception. -/
lemma generate_from_book_eq (existsFn : String → Bool) (stream : Nat → Draw) (book : Book)
    (c : String) (hres : _get_main_author_code_from_book book = some c) (hc : ¬ c = "") :
    generate_unique_isbn_from_book existsFn stream book none =
      (match generate_unique_isbn_for_nationality (some c) existsFn stream 5000 with
       | .ok s => .ok s
       | .error _ => generate_unique_isbn_for_nationality (some "000") existsFn stream 5000) := by
  unfold generate_unique_isbn_from_book
  simp only [hres, truthyStr, if_neg hc]

/-- Whatever seed the from-book generator ends up using, a successful result
is a 13-character identifier that was free according to existsFn. -/
lemma generate_from_book_ok_shape (existsFn : String → Bool) (stream : Nat → Draw)
    (book : Book) (ov : Option String) (t : String)
    (h : generate_unique_isbn_from_book existsFn stream book ov = .ok t) :
    t.data.length = 13 ∧ existsFn t = false := by
  unfold generate_unique_isbn_from_book at h
  cases hov : truthyStr ov with
  | some o =>
    simp only [hov] at h
    exact ⟨(generate_ok_shape _ _ _ _ _ h).1, (generate_ok_shape _ _ _ _ _ h).2.2.2.2.2⟩
  | none =>
    simp only [hov] at h
    cases hres : truthyStr (_get_main_author_code_from_book book) with
    | some c =>
      simp only [hres] at h
      cases hg : generate_unique_isbn_for_nationality (some c) existsFn stream 5000 with
      | ok u =>
        simp only [hg] at h
        cases h
        exact ⟨(generate_ok_shape _ _ _ _ _ hg).1, (generate_ok_shape _ _ _ _ _ hg).2.2.2.2.2⟩
      | error e =>
        simp only [hg] at h
        exact ⟨(generate_ok_shape _ _ _ _ _ h).1, (generate_ok_shape _ _ _ _ _ h).2.2.2.2.2⟩
    | none =>
      simp only [hres] at h
      exact ⟨(generate_ok_shape _ _ _ _ _ h).1, (generate_ok_shape _ _ _ _ _ h).2.2.2.2.2⟩

/-- The regeneration branch structure of the update hook, for a book with a
primary author, a nationality, and an assigned identifier. -/
lemma update_isbn_eq (existsFn : String → Bool) (stream : Nat → Draw) (book : Book)
    (rel : BookAuthor) (natl : Nationality) (s : String)
    (hrel : (orderByOrder book.bookauthor_set).head? = some rel)
    (hnat : rel.author.nationality = some natl)
    (hisbn : book.isbn = some s) (hsne : ¬ s = "") (hlen6 : s.data.length ≥ 6) :
    _update_book_isbn_if_needed existsFn stream book =
      (if _normalize_nat_code (some natl.code) = "" ∨
          _normalize_nat_code (some natl.code) = String.mk ((s.data.drop 3).take 3) then
        .ok book
      else
        match generate_unique_isbn_from_book existsFn stream book none with
        | .error e => .error e
        | .ok new_isbn =>
          if ¬ new_isbn = "" ∧ ¬ new_isbn = s then .ok (book.setIsbn (some new_isbn))
          else .ok book) := by
  unfold _update_book_isbn_if_needed
  rw [hrel]
  simp only [hnat, hisbn, truthyStr, if_neg hsne, if_pos hlen6]

/-- On a segment mismatch the update hook installs the fresh identifier
delivered by the full generator, and that identifier differs from the current
one. -/
lemma update_installs_fresh (existsFn : String → Bool) (stream : Nat → Draw) (book : Book)
    (rel : BookAuthor) (natl : Nationality) (s : String)
    (hrel : (orderByOrder book.bookauthor_set).head? = some rel)
    (hnat : rel.author.nationality = some natl)
    (hisbn : book.isbn = some s) (hlen : s.data.length = 13) (hreg : existsFn s = true)
    (hmis : ¬ _normalize_nat_code (some natl.code) = String.mk ((s.data.drop 3).take 3))
    (t : String) (hgen : generate_unique_isbn_from_book existsFn stream book none = .ok t) :
    _update_book_isbn_if_needed existsFn stream book = .ok (book.setIsbn (some t)) ∧
      ¬ t = s := by
  have hsne : ¬ s = "" := ne_empty_of_data_len hlen (by decide)
  have hlen6 : s.data.length ≥ 6 := by omega
  have hcurne : ¬ _normalize_nat_code (some natl.code) = "" :=
    ne_empty_of_data_len (normalize_shape (some natl.code)).1 (by decide)
  have hsh := generate_from_book_ok_shape existsFn stream book none t hgen
  have htne : ¬ t = "" := ne_empty_of_data_len hsh.1 (by decide)
  have htns : ¬ t = s := by
    intro hts
    rw [hts, hreg] at hsh
    exact absurd hsh.2 (by decide)
  refine ⟨?_, htns⟩
  rw [update_isbn_eq existsFn stream book rel natl s hrel hnat hisbn hsne hlen6,
    if_neg (by push_neg; exact ⟨hcurne, hmis⟩), hgen]
  show (if ¬ t = "" ∧ ¬ t = s then Except.ok (book.setIsbn (some t)) else Except.ok book) =
    Except.ok (book.setIsbn (some t))
  rw [if_pos ⟨htne, htns⟩]

/-- Claim C2: with an assigned identifier and at least one contributor, the
update hook regenerates exactly when the identifier segment at offsets 3..6
differs from the normalization of the freshly resolved primary contributor
code; regeneration runs the full generator and installs its (distinct)
output, and in the 600 to 601 scenario the new identifier embeds segment 601
and differs from the original identifier. -/
theorem update_regenerates_iff_segment_mismatch
    (existsFn : String → Bool) (stream : Nat → Draw) (book : Book)
    (rel : BookAuthor) (natl : Nationality) (s : String)
    (hrel : (orderByOrder book.bookauthor_set).head? = some rel)
    (hnat : rel.author.nationality = some natl)
    (hisbn : book.isbn = some s)
    (hlen : s.data.length = 13)
    (hreg : existsFn s = true) :
    (_normalize_nat_code (some natl.code) = String.mk ((s.data.drop 3).take 3) →
      _update_book_isbn_if_needed existsFn stream book = .ok book) ∧
    (¬ _normalize_nat_code (some natl.code) = String.mk ((s.data.drop 3).take 3) →
      ∀ t, generate_unique_isbn_from_book existsFn stream book none = .ok t →
        _update_book_isbn_if_needed existsFn stream book = .ok (book.setIsbn (some t)) ∧
        ¬ t = s) ∧
    (String.mk ((s.data.drop 3).take 3) = "600" →
      _normalize_nat_code (some natl.code) = "601" →
      ∀ t, generate_unique_isbn_for_nationality (some natl.code) existsFn stream 5000 = .ok t →
        _update_book_isbn_if_needed existsFn stream book = .ok (book.setIsbn (some t)) ∧
        String.mk ((t.data.drop 3).take 3) = "601" ∧ ¬ t = s) := by
  have hsne : ¬ s = "" := ne_empty_of_data_len hlen (by decide)
  have hlen6 : s.data.length ≥ 6 := by omega
  refine ⟨?_, ?_, ?_⟩
  · intro hmatch
    rw [update_isbn_eq existsFn stream book rel natl s hrel hnat hisbn hsne hlen6,
      if_pos (Or.inr hmatch)]
  · intro hmis t hgen
    exact update_installs_fresh existsFn stream book rel natl s hrel hnat hisbn hlen hreg
      hmis t hgen
  · intro hseg hcur t hg
    have hmis : ¬ _normalize_nat_code (some natl.code) = String.mk ((s.data.drop 3).take 3) := by
      rw [hcur, hseg]; decide
    have hcodene : ¬ natl.code = "" := by
      intro hc
      rw [hc] at hcur
      exact absurd hcur (by decide)
    have hres := resolver_primary_code book rel natl hrel hnat
    have hfb : generate_unique_isbn_from_book existsFn stream book none = .ok t := by
      rw [generate_from_book_eq existsFn stream book natl.code hres hcodene, hg]
    have hinstall := update_installs_fresh existsFn stream book rel natl s hrel hnat hisbn
      hlen hreg hmis t hfb
    have hnat601 : natUsed (some natl.code) = "601" := by
      unfold natUsed
      rw [hcur]
      decide
    have hsegT : String.mk ((t.data.drop 3).take 3) = "601" := by
      rw [(generate_ok_shape _ _ _ _ _ hg).2.2.2.1, hnat601]
    exact ⟨hinstall.1, hsegT, hinstall.2⟩

/-- Registry for the C2 witness: exactly the currently assigned identifier is
taken. -/
def existsSeg600 : String → Bool := fun c => c == "9786000000004"

/-- Book for the C2 witness: identifier segment 600, primary author code
601. -/
def bookSeg600 : Book :=
  ⟨4, "Left Hand", none, none, false, none, some "9786000000004",
   [⟨some 1, ⟨"Ursula", "LeGuin", some ⟨"X", "601"⟩⟩, 1⟩]⟩

/-- Witness for C2 at the concrete 600 to 601 scenario. -/
theorem update_regenerates_iff_segment_mismatch_witness :
    _update_book_isbn_if_needed existsSeg600 streamZero bookSeg600 =
      .ok (bookSeg600.setIsbn (some "9786010000001")) ∧
    String.mk (("9786010000001".data.drop 3).take 3) = "601" ∧
    ¬ "9786010000001" = "9786000000004" :=
  (update_regenerates_iff_segment_mismatch existsSeg600 streamZero bookSeg600
    ⟨some 1, ⟨"Ursula", "LeGuin", some ⟨"X", "601"⟩⟩, 1⟩ ⟨"X", "601"⟩ "9786000000004"
    rfl rfl rfl (by decide) rfl).2.2 rfl rfl "9786010000001" (by rfl)

/-- For a disallowed normalized seed the generator embeds the sentinel. -/
lemma natUsed_of_disallowed (x : Option String)
    (hdis : _is_allowed_nat_code (_normalize_nat_code x) = false) : natUsed x = "000" := by
  unfold natUsed
  rw [hdis]
  simp

/-- Any successful from-book generation for an entity resolving to a nonempty
code whose normalization is disallowed embeds the sentinel segment. -/
lemma from_book_segment_sentinel (existsFn : String → Bool) (stream : Nat → Draw)
    (book : Book) (c : String)
    (hres : _get_main_author_code_from_book book = some c) (hcne : ¬ c = "")
    (hdis : _is_allowed_nat_code (_normalize_nat_code (some c)) = false)
    (u : String) (h : generate_unique_isbn_from_book existsFn stream book none = .ok u) :
    String.mk ((u.data.drop 3).take 3) = "000" := by
  rw [generate_from_book_eq existsFn stream book c hres hcne] at h
  cases hg : generate_unique_isbn_for_nationality (some c) existsFn stream 5000 with
  | ok v =>
    simp only [hg] at h
    cases h
    rw [(generate_ok_shape _ _ _ _ _ hg).2.2.2.1]
    have hu : natUsed (some c) = "000" := natUsed_of_disallowed (some c) hdis
    rw [hu]
  | error e =>
    simp only [hg] at h
    rw [(generate_ok_shape _ _ _ _ _ h).2.2.2.1]
    rfl

/-- Claim C10: when the primary contributor code normalizes to a disallowed
value, every identifier the generator produces for the entity embeds the
sentinel 000 while the update trigger compares that segment against the
disallowed code itself, so the trigger never becomes false: every update run
regenerates a fresh identifier (again embedding 000) even with no field
edited. -/
theorem disallowed_code_always_regenerates
    (existsFn existsFn2 : String → Bool) (stream stream2 : Nat → Draw) (book : Book)
    (rel : BookAuthor) (natl : Nationality) (c3 s t : String)
    (hrel : (orderByOrder book.bookauthor_set).head? = some rel)
    (hnat : rel.author.nationality = some natl)
    (hnorm : _normalize_nat_code (some natl.code) = c3)
    (hdis : _is_allowed_nat_code c3 = false)
    (hgen : generate_unique_isbn_from_book existsFn stream book none = .ok s)
    (hreg2 : existsFn2 s = true)
    (hgen2 : generate_unique_isbn_from_book existsFn2 stream2 (book.setIsbn (some s)) none =
      .ok t) :
    String.mk ((s.data.drop 3).take 3) = "000" ∧
    ¬ c3 = "000" ∧
    _update_book_isbn_if_needed existsFn2 stream2 (book.setIsbn (some s)) =
      .ok ((book.setIsbn (some s)).setIsbn (some t)) ∧
    ¬ t = s ∧
    String.mk ((t.data.drop 3).take 3) = "000" := by
  have hc3ne : ¬ c3 = "000" := by
    intro hc
    rw [hc] at hdis
    exact absurd hdis (by decide)
  have hcodene : ¬ natl.code = "" := by
    intro hc
    rw [hc] at hnorm
    exact hc3ne (by rw [← hnorm]; rfl)
  have hres := resolver_primary_code book rel natl hrel hnat
  have hdisn : _is_allowed_nat_code (_normalize_nat_code (some natl.code)) = false := by
    rw [hnorm]; exact hdis
  have hsegs : String.mk ((s.data.drop 3).take 3) = "000" :=
    from_book_segment_sentinel existsFn stream book natl.code hres hcodene hdisn s hgen
  have hlen_s : s.data.length = 13 := (generate_from_book_ok_shape _ _ _ _ _ hgen).1
  have hrel1 : (orderByOrder (book.setIsbn (some s)).bookauthor_set).head? = some rel := hrel
  have hres1 : _get_main_author_code_from_book (book.setIsbn (some s)) = some natl.code :=
    resolver_primary_code (book.setIsbn (some s)) rel natl hrel1 hnat
  have hmis : ¬ _normalize_nat_code (some natl.code) =
      String.mk ((s.data.drop 3).take 3) := by
    rw [hnorm, hsegs]
    exact hc3ne
  have hinstall := update_installs_fresh existsFn2 stream2 (book.setIsbn (some s)) rel natl s
    hrel1 hnat rfl hlen_s hreg2 hmis t hgen2
  have hsegt : String.mk ((t.data.drop 3).take 3) = "000" :=
    from_book_segment_sentinel existsFn2 stream2 (book.setIsbn (some s)) natl.code hres1
      hcodene hdisn t hgen2
  exact ⟨hsegs, hc3ne, hinstall.1, hinstall.2, hsegt⟩

/-- A stream whose publication draw at step i is i, used by the C10
witness to force one retry. -/
def streamIota : Nat → Draw := fun i => ⟨⟨0, by decide⟩, ⟨i % 1000000, Nat.mod_lt i (by decide)⟩⟩

/-- Book for the C10 witness: primary author code 700, which normalizes to
itself and is disallowed. -/
def bookCode700 : Book :=
  ⟨5, "Foreign", none, none, false, none, none,
   [⟨some 1, ⟨"Li", "Wei", some ⟨"Y", "700"⟩⟩, 1⟩]⟩

/-- Registry for the C10 witness: exactly the first generated identifier is
taken. -/
def existsTaken : String → Bool := fun c => c == "9780000000002"

/-- Witness for C10 at code 700: the first identifier embeds 000, the update
still regenerates, and the fresh identifier embeds 000 again. -/
theorem disallowed_code_always_regenerates_witness :
    String.mk (("9780000000002".data.drop 3).take 3) = "000" ∧
    ¬ "700" = "000" ∧
    _update_book_isbn_if_needed existsTaken streamIota
        (bookCode700.setIsbn (some "9780000000002")) =
      .ok ((bookCode700.setIsbn (some "9780000000002")).setIsbn (some "9780000000019")) ∧
    ¬ "9780000000019" = "9780000000002" ∧
    String.mk (("9780000000019".data.drop 3).take 3) = "000" :=
  disallowed_code_always_regenerates (fun _ => false) existsTaken streamZero streamIota
    bookCode700 ⟨some 1, ⟨"Li", "Wei", some ⟨"Y", "700"⟩⟩, 1⟩ ⟨"Y", "700"⟩
    "700" "9780000000002" "9780000000019"
    rfl rfl rfl (by decide) (by rfl) rfl (by rfl)

end BookLib
